import Mathlib

/-
Verification development for the marian GPU N-best (top-K) selection engine
(translator/nth_element.cu, class NthElementGPU) and the GPU backend
(tensors/gpu/backend.h, class marian::gpu::Backend).

Scores are modelled as exact rationals; device buffers are modelled as lists
carried in an explicit engine state; fatal aborts (ABORT / ABORT_IF) are
modelled with Except, the error value carrying the message together with the
contents of the two output containers at the moment of the abort.
-/

namespace marian

/-- Device identity: an accelerator device number (DeviceId). -/
structure DeviceId where
  no : Nat
deriving DecidableEq

/-- Modelled from the spec: the TopK record of 3rd_party/topk.cuh (which is not
under src/): an (index, value) pair, where p is the flattened vocabulary
position of a candidate within its batch row and u is its score. -/
structure TopK where
  p : Nat
  u : Rat
deriving DecidableEq

instance : Inhabited TopK := ⟨⟨0, 0⟩⟩

/-- Element precision tag of a tensor: Type::float32, Type::float16, or any
other (unsupported) element type. -/
inductive ElemType where
  | float32
  | float16
  | other (name : String)
deriving DecidableEq

/-- Whether getNBestList has a dispatch branch for this element type
(float32 always; float16 under COMPILE_FP16, taken as enabled). -/
def supportedScoreType : ElemType → Bool
  | .float32 => true
  | .float16 => true
  | .other _ => false

/-- Four-dimensional tensor shape; the source reads shape()[-1], shape()[-2]
and shape()[-4], i.e. d3, d2 and d0. -/
structure Shape where
  d0 : Nat
  d1 : Nat
  d2 : Nat
  d3 : Nat
deriving DecidableEq

/-- shape()[-1]: the last dimension (vocabulary size). -/
def Shape.atNeg1 (s : Shape) : Nat := s.d3

/-- shape()[-2]: the second-to-last dimension (input beam count). -/
def Shape.atNeg2 (s : Shape) : Nat := s.d2

/-- shape()[-4]: the fourth-from-last dimension (batch size). -/
def Shape.atNeg4 (s : Shape) : Nat := s.d0

/-- A score tensor: shape, element type, and its flat device-resident data,
modelled as exact rationals. -/
structure Tensor where
  shape : Shape
  ty : ElemType
  data : List Rat
deriving DecidableEq

/-- Score-descending ordering on TopK records: a comes no later than b when
a's score is at least b's score. -/
def topkGE (a b : TopK) : Prop := b.u ≤ a.u

instance : DecidableRel topkGE := fun a b => inferInstanceAs (Decidable (b.u ≤ a.u))

instance : IsTotal TopK topkGE := ⟨fun a b => le_total b.u a.u⟩

instance : IsTrans TopK topkGE := ⟨fun _ _ _ hab hbc => le_trans hbc hab⟩

/-- Sorting a candidate list into score-descending order. -/
def sortDesc (l : List TopK) : List TopK := List.insertionSort topkGE l

/-- Modelled from the spec: the bound MAX_BLOCKS_PER_BEAM on reduction blocks
per beam row, defined in 3rd_party/topk.cuh (which is not under src/). -/
def MAX_BLOCKS_PER_BEAM : Nat := 8

/-- Splits a list into nb contiguous blocks of bs elements each; the final
blocks may be shorter or empty. -/
def splitBlocks (l : List α) (bs : Nat) : Nat → List (List α)
  | 0 => []
  | nb + 1 => l.take bs :: splitBlocks (l.drop bs) bs nb

/-- Pairs each entry of a batch row with its flattened position in the row. -/
def enumRow (row : List Rat) : List TopK := row.enum.map (fun iv => ⟨iv.1, iv.2⟩)

/-- Modelled from the spec: ceil-division block size, so that
MAX_BLOCKS_PER_BEAM blocks cover one beam's vocabulary range. -/
def blockSize (vocabSize : Nat) : Nat :=
  (vocabSize + MAX_BLOCKS_PER_BEAM - 1) / MAX_BLOCKS_PER_BEAM

/-- Modelled from the spec: the stage-1 partition of one batch row into
reduction blocks: per input beam, MAX_BLOCKS_PER_BEAM contiguous blocks of its
vocabulary range. -/
def rowChunks (row : List TopK) (beamsPerBatch vocabSize : Nat) : List (List TopK) :=
  ((splitBlocks row vocabSize beamsPerBatch).map
    (fun beamSeg => splitBlocks beamSeg (blockSize vocabSize) MAX_BLOCKS_PER_BEAM)).flatten

/-- Modelled from the spec: stage 1 of the reduction, each block computing its
local top-k candidates independently. -/
def stage1 (chunks : List (List TopK)) (k : Nat) : List (List TopK) :=
  chunks.map (fun c => (sortDesc c).take k)

/-- Modelled from the spec: stage 2 of the reduction, merging the per-block
candidates of a row into the row's final top-n record, score-descending. -/
def stage2 (cands : List TopK) (n : Nat) : List TopK := (sortDesc cands).take n

/-- The flat score row of batch element b: its beamsPerBatch * vocabSize
contiguous entries of the flat tensor data. -/
def batchRow (probs : List Rat) (b beamsPerBatch vocabSize : Nat) : List Rat :=
  (probs.drop (b * (beamsPerBatch * vocabSize))).take (beamsPerBatch * vocabSize)

/-- Modelled from the spec: all stage-1 candidates of batch element b. -/
def batchCandidates (probs : List Rat) (b beamsPerBatch beamWidth vocabSize : Nat) : List TopK :=
  (stage1 (rowChunks (enumRow (batchRow probs b beamsPerBatch vocabSize)) beamsPerBatch vocabSize)
    beamWidth).flatten

/-- Modelled from the spec: the final top-beamWidth record of batch element b. -/
def batchTopK (probs : List Rat) (b beamsPerBatch beamWidth vocabSize : Nat) : List TopK :=
  stage2 (batchCandidates probs b beamsPerBatch beamWidth vocabSize) beamWidth

/-- Modelled from the spec: the result records the kernel pipeline writes into
the device result buffer, batch-major. -/
def kernelResults (probs : List Rat) (batchSize beamsPerBatch beamWidth vocabSize : Nat) :
    List TopK :=
  ((List.range batchSize).map (fun b => batchTopK probs b beamsPerBatch beamWidth vocabSize)).flatten

/-- The hard vocabulary-size ceiling MAX_VOCAB_SIZE of NthElementGPU. -/
def MAX_VOCAB_SIZE : Nat := 500000

/-- The selection engine NthElementGPU: device identity, configured maxima, and
the four scratch buffers (temporary index/value buffers, device result buffer
tops, pinned host mirror topsHost). -/
structure NthElementGPU where
  deviceId_ : DeviceId
  maxBeamSize_ : Nat
  maxBatchSize_ : Nat
  topk_tmp_id_buf : List Nat
  topk_tmp_val_buf : List Rat
  tops : List TopK
  topsHost : List TopK
deriving DecidableEq

/-- Constructor NthElementGPU(maxBeamSize, maxBatchSize, deviceId): allocates
the four scratch buffers at their construction-time sizes. -/
def NthElementGPU.init (maxBeamSize maxBatchSize : Nat) (deviceId : DeviceId) : NthElementGPU :=
  let tempElts := maxBatchSize * maxBeamSize * maxBeamSize * MAX_BLOCKS_PER_BEAM
  { deviceId_ := deviceId
    maxBeamSize_ := maxBeamSize
    maxBatchSize_ := maxBatchSize
    topk_tmp_id_buf := List.replicate tempElts 0
    topk_tmp_val_buf := List.replicate tempElts 0
    tops := List.replicate (maxBatchSize * maxBeamSize) default
    topsHost := List.replicate (maxBeamSize * maxBatchSize) default }

/-- Modelled from the spec: topK_kernelLauncher of 3rd_party/topk.cuh (not
under src/): stage 1 overwrites the prefixes of the temporary index/value
buffers with the per-block candidates, stage 2 overwrites the prefix of the
device result buffer with each batch row's merged top-beamWidth record. -/
def topK_kernelLauncher (probs : List Rat)
    (batchSize beamsPerBatch beamWidth vocabSize : Nat) (e : NthElementGPU) : NthElementGPU :=
  let cands := ((List.range batchSize).map
    (fun b => batchCandidates probs b beamsPerBatch beamWidth vocabSize)).flatten
  let res := kernelResults probs batchSize beamsPerBatch beamWidth vocabSize
  { e with
    topk_tmp_id_buf := cands.map (·.p) ++ e.topk_tmp_id_buf.drop cands.length
    topk_tmp_val_buf := cands.map (·.u) ++ e.topk_tmp_val_buf.drop cands.length
    tops := res ++ e.tops.drop res.length }

/-- NthElementGPU::selectNBest: binds the device and launches the two-stage
top-K kernel pipeline on the score data. -/
def NthElementGPU.selectNBest (e : NthElementGPU) (probs : List Rat)
    (batchSize beamsPerBatch beamWidth vocabSize : Nat) : NthElementGPU :=
  topK_kernelLauncher probs batchSize beamsPerBatch beamWidth vocabSize e

/-- NthElementGPU::getPairs: copies numElts TopK records from the device result
buffer to the pinned host mirror, synchronizes, and then appends record i's
index to outKeys and record i's value to outValues, for i = 0 .. numElts - 1.
Returns the updated engine, the keys container and the values container. -/
def NthElementGPU.getPairs (e : NthElementGPU) (numElts : Nat)
    (outKeys : List Nat) (outValues : List Rat) : NthElementGPU × List Nat × List Rat :=
  let copied := (List.range numElts).map (fun i => e.tops.getD i default)
  let e2 := { e with topsHost := copied ++ e.topsHost.drop numElts }
  let keys := outKeys ++ (List.range numElts).map (fun i => (e2.topsHost.getD i default).p)
  let vals := outValues ++ (List.range numElts).map (fun i => (e2.topsHost.getD i default).u)
  (e2, keys, vals)

/-- The engine state after the kernel launch inside getNBestList. -/
def launchedEngine (e : NthElementGPU) (scores : Tensor) (N : Nat) : NthElementGPU :=
  e.selectNBest scores.data scores.shape.atNeg4 scores.shape.atNeg2 N scores.shape.atNeg1

/-- The dimBatch * N records that result extraction reads from the device
result buffer. -/
def appendedRecords (e : NthElementGPU) (scores : Tensor) (N : Nat) : List TopK :=
  (List.range (scores.shape.atNeg4 * N)).map
    (fun i => (launchedEngine e scores N).tops.getD i default)

/-- The engine state after a successful getNBestList call. -/
def engineAfter (e : NthElementGPU) (scores : Tensor) (N : Nat) : NthElementGPU :=
  { launchedEngine e scores N with
    topsHost := appendedRecords e scores N ++
      (launchedEngine e scores N).topsHost.drop (scores.shape.atNeg4 * N) }

/-- The row-wise true top-N property of the claim: the selected records are
sorted score-descending, and splitting the enumerated row into the selected
records and a remainder, every selected score is at least every remaining
score. -/
def rowTopProperty (rowScores : List Rat) (selected : List TopK) : Prop :=
  List.Sorted topkGE selected ∧
  ∃ rest : List TopK, List.Perm (selected ++ rest) (enumRow rowScores) ∧
    ∀ x ∈ selected, ∀ y ∈ rest, y.u ≤ x.u

/-- Outcome of a fatal abort: the diagnostic message and the contents of the
two output containers at the moment of the abort. -/
structure Aborted where
  msg : String
  outCosts : List Rat
  outKeys : List Nat
deriving DecidableEq

/-- Whether a getNBestList call aborted. -/
def isAbort : Except Aborted α → Bool
  | .error _ => true
  | .ok _ => false

/-- NthElementGPU::getNBestList: validates the caller contract, dispatches the
reduction kernels by element precision, extracts dimBatch * N result pairs and
checks the final size of the keys container. The source dispatches float32 and
float16 to the same templated selectNBest; both branches act identically on the
modelled (exact) score data. -/
def NthElementGPU.getNBestList (e : NthElementGPU) (scores : Tensor) (N : Nat)
    (outCosts : List Rat) (outKeys : List Nat) (isFirst : Bool) :
    Except Aborted (NthElementGPU × List Rat × List Nat) :=
  let vocabSize := scores.shape.atNeg1
  let inputN := scores.shape.atNeg2
  let dimBatch := scores.shape.atNeg4
  if inputN ≠ (if isFirst then 1 else N) then
    .error ⟨"Input tensor has wrong beam dim??", outCosts, outKeys⟩
  else if vocabSize > MAX_VOCAB_SIZE then
    .error ⟨"GetNBestList(): actual vocab size exceeds MAX_VOCAB_SIZE", outCosts, outKeys⟩
  else if dimBatch > e.maxBatchSize_ then
    .error ⟨"GetNBestList(): actual batch size exceeds initialization parameter", outCosts, outKeys⟩
  else if max N inputN > e.maxBeamSize_ then
    .error ⟨"GetNBestList(): actual beam size exceeds initialization parameter", outCosts, outKeys⟩
  else if supportedScoreType scores.ty then
    let e1 := e.selectNBest scores.data dimBatch inputN N vocabSize
    let r := e1.getPairs (dimBatch * N) outKeys outCosts
    if r.2.1.length ≠ dimBatch * N then
      .error ⟨"Expected and got different value counts during topk", r.2.2, r.2.1⟩
    else
      .ok (r.1, r.2.2, r.2.1)
  else
    .error ⟨"getNBestList not implemented for type", outCosts, outKeys⟩

/-- Cached compute capability (major, minor), read once at construction. -/
structure CudaCompute where
  major : Int
  minor : Int
deriving DecidableEq

/-- An execution stream: the legacy default stream 0 or cudaStreamPerThread. -/
inductive CudaStream where
  | stream0
  | perThread
deriving DecidableEq

/-- A created vendor math-library handle: a nonzero identifier together with
the stream it was bound to at creation. -/
structure MathHandle where
  id : Nat
  stream : CudaStream
deriving DecidableEq

/-- Identifies one LOG_ONCE call site; the once-latch is a static per site. -/
inductive LogSite where
  | inSetInt16
  | inSetShifted
  | inSetShiftedAll
  | inSetLegacyBatchedGemm
deriving DecidableEq

/-- Logging state: which LOG_ONCE sites have fired, and all emitted messages in
order. -/
structure LogState where
  onceSites : List LogSite
  messages : List String
deriving DecidableEq

/-- LOG_ONCE: emits the message the first time its call site is reached and
nothing on later visits. -/
def logOnce (site : LogSite) (msg : String) (ls : LogState) : LogState :=
  if site ∈ ls.onceSites then ls else ⟨site :: ls.onceSites, ls.messages ++ [msg]⟩

namespace gpu

/-- The GPU backend state: device identity and seed, the five capability
flags, the cached compute capability, the two lazily created math-library
handles (none models the 0 null handle), and a counter supplying fresh nonzero
handle identifiers so that handle creation is observable. -/
structure Backend where
  deviceNo : Nat
  seed : Nat
  int8_ : Bool
  alpha_ : Bool
  tensorCore_ : Bool
  fused_ : Bool
  dumpMatrices_ : Bool
  compute_ : CudaCompute
  cublasHandle_ : Option MathHandle
  cusparseHandle_ : Option MathHandle
  nextHandleId : Nat
deriving DecidableEq

/-- Constructor Backend(deviceId, seed): binds the device, caches the compute
capability; all flags start false and both handles start null. -/
def Backend.init (deviceNo seed : Nat) (compute : CudaCompute) : Backend :=
  { deviceNo := deviceNo
    seed := seed
    int8_ := false
    alpha_ := false
    tensorCore_ := false
    fused_ := false
    dumpMatrices_ := false
    compute_ := compute
    cublasHandle_ := none
    cusparseHandle_ := none
    nextHandleId := 1 }

/-- getCublasHandle: lazily creates the dense math-library handle, binds it to
the per-thread stream and caches it on first call; returns the cached handle
thereafter. -/
def Backend.getCublasHandle (b : Backend) : MathHandle × Backend :=
  match b.cublasHandle_ with
  | some h => (h, b)
  | none =>
    let h : MathHandle := ⟨b.nextHandleId, .perThread⟩
    (h, { b with cublasHandle_ := some h, nextHandleId := b.nextHandleId + 1 })

/-- getCusparseHandle: lazily creates the sparse math-library handle, binds it
to the per-thread stream and caches it on first call; returns the cached
handle thereafter. -/
def Backend.getCusparseHandle (b : Backend) : MathHandle × Backend :=
  match b.cusparseHandle_ with
  | some h => (h, b)
  | none =>
    let h : MathHandle := ⟨b.nextHandleId, .perThread⟩
    (h, { b with cusparseHandle_ := some h, nextHandleId := b.nextHandleId + 1 })

/-- setInt16: not supported on GPU; logs a notice once and changes nothing. -/
def Backend.setInt16 (b : Backend) (optimize : Bool) (ls : LogState) : Backend × LogState :=
  (b, logOnce .inSetInt16 ("setOptimized() not supported for GPU_" ++ toString optimize) ls)

/-- isInt16: always false on GPU. -/
def Backend.isInt16 (_ : Backend) : Bool := false

/-- setInt8: stores the flag. -/
def Backend.setInt8 (b : Backend) (optimize : Bool) : Backend := { b with int8_ := optimize }

/-- isInt8: reads the stored flag. -/
def Backend.isInt8 (b : Backend) : Bool := b.int8_

/-- setShifted: not supported on GPU; logs a notice once and changes nothing. -/
def Backend.setShifted (b : Backend) (shifted : Bool) (ls : LogState) : Backend × LogState :=
  (b, logOnce .inSetShifted ("setShifted() not supported for GPU_" ++ toString shifted) ls)

/-- isShifted: always false on GPU. -/
def Backend.isShifted (_ : Backend) : Bool := false

/-- setShiftedAll: not supported on GPU; logs a notice once and changes
nothing. -/
def Backend.setShiftedAll (b : Backend) (shiftedAll : Bool) (ls : LogState) : Backend × LogState :=
  (b, logOnce .inSetShiftedAll ("setShiftedAll() not supported for GPU_" ++ toString shiftedAll) ls)

/-- isShiftedAll: always false on GPU. -/
def Backend.isShiftedAll (_ : Backend) : Bool := false

/-- setDumpQuantMult: stores the flag. -/
def Backend.setDumpQuantMult (b : Backend) (dump : Bool) : Backend :=
  { b with dumpMatrices_ := dump }

/-- DumpQuantMult: reads the stored flag. -/
def Backend.dumpQuantMult (b : Backend) : Bool := b.dumpMatrices_

/-- setPrecomputedAlpha: stores the flag. -/
def Backend.setPrecomputedAlpha (b : Backend) (alpha : Bool) : Backend :=
  { b with alpha_ := alpha }

/-- isPrecomputedAlpha: reads the stored flag. -/
def Backend.isPrecomputedAlpha (b : Backend) : Bool := b.alpha_

/-- setLegacyBatchedGemm: not supported on GPU; logs a notice once and changes
nothing. -/
def Backend.setLegacyBatchedGemm (b : Backend) (legacyBatch : Bool) (ls : LogState) :
    Backend × LogState :=
  (b, logOnce .inSetLegacyBatchedGemm
    ("setLegacyBatchedGemm() not supported for GPU_" ++ toString legacyBatch) ls)

/-- isLegacyBatchedGemm: always false on GPU. -/
def Backend.isLegacyBatchedGemm (_ : Backend) : Bool := false

/-- setTensorCoreGemm: enabling requires compute-capability major at least 7
(fatal otherwise); disabling does nothing at all. -/
def Backend.setTensorCoreGemm (b : Backend) (tensorCore : Bool) : Except String Backend :=
  if tensorCore then
    if b.compute_.major < 7 then
      .error "Compute capability below 7 do not support tensor cores"
    else
      .ok { b with tensorCore_ := tensorCore }
  else
    .ok b

/-- useTensorCoreGemm: reads the stored flag. -/
def Backend.useTensorCoreGemm (b : Backend) : Bool := b.tensorCore_

/-- setFused: stores the flag. -/
def Backend.setFused (b : Backend) (fused : Bool) : Backend := { b with fused_ := fused }

/-- isFused: reads the stored flag. -/
def Backend.isFused (b : Backend) : Bool := b.fused_

/-- One public mutating or handle-returning backend operation. -/
inductive BackendOp where
  | opSetInt16 (x : Bool)
  | opSetInt8 (x : Bool)
  | opSetShifted (x : Bool)
  | opSetShiftedAll (x : Bool)
  | opSetDumpQuantMult (x : Bool)
  | opSetPrecomputedAlpha (x : Bool)
  | opSetLegacyBatchedGemm (x : Bool)
  | opSetTensorCoreGemm (x : Bool)
  | opSetFused (x : Bool)
  | opGetCublasHandle
  | opGetCusparseHandle
deriving DecidableEq

/-- Effect of one backend operation on the (backend, log) state; none means
the process aborted. -/
def stepBackend (op : BackendOp) (b : Backend) (ls : LogState) : Option (Backend × LogState) :=
  match op with
  | .opSetInt16 x => some (b.setInt16 x ls)
  | .opSetInt8 x => some (b.setInt8 x, ls)
  | .opSetShifted x => some (b.setShifted x ls)
  | .opSetShiftedAll x => some (b.setShiftedAll x ls)
  | .opSetDumpQuantMult x => some (b.setDumpQuantMult x, ls)
  | .opSetPrecomputedAlpha x => some (b.setPrecomputedAlpha x, ls)
  | .opSetLegacyBatchedGemm x => some (b.setLegacyBatchedGemm x ls)
  | .opSetTensorCoreGemm x =>
    match b.setTensorCoreGemm x with
    | .ok b2 => some (b2, ls)
    | .error _ => none
  | .opSetFused x => some (b.setFused x, ls)
  | .opGetCublasHandle => some ((b.getCublasHandle).2, ls)
  | .opGetCusparseHandle => some ((b.getCusparseHandle).2, ls)

/-- Runs a sequence of backend operations, stopping at an abort. -/
def runBackend (ops : List BackendOp) (b : Backend) (ls : LogState) :
    Option (Backend × LogState) :=
  match ops with
  | [] => some (b, ls)
  | op :: rest =>
    match stepBackend op b ls with
    | none => none
    | some (b2, ls2) => runBackend rest b2 ls2

end gpu

/- Helper lemmas about the sorting and block-partition building blocks. -/

theorem sortDesc_perm (l : List TopK) : List.Perm (sortDesc l) l :=
  List.perm_insertionSort topkGE l

theorem sortDesc_sorted (l : List TopK) : List.Sorted topkGE (sortDesc l) :=
  List.sorted_insertionSort topkGE l

theorem sortDesc_length (l : List TopK) : (sortDesc l).length = l.length :=
  List.length_insertionSort topkGE l

theorem splitBlocks_flatten (bs nb : Nat) (l : List α) :
    (splitBlocks l bs nb).flatten = l.take (bs * nb) := by
  induction nb generalizing l with
  | zero => simp [splitBlocks]
  | succ n ih =>
    have h : bs * (n + 1) = bs + bs * n := by ring
    simp only [splitBlocks, List.flatten_cons, ih, h, List.take_add]

theorem splitBlocks_flatten_of_le {bs nb : Nat} {l : List α} (h : l.length ≤ bs * nb) :
    (splitBlocks l bs nb).flatten = l := by
  rw [splitBlocks_flatten, List.take_of_length_le h]

theorem length_le_of_mem_splitBlocks {bs nb : Nat} {l c : List α}
    (hc : c ∈ splitBlocks l bs nb) : c.length ≤ bs := by
  induction nb generalizing l with
  | zero => simp [splitBlocks] at hc
  | succ n ih =>
    simp only [splitBlocks, List.mem_cons] at hc
    rcases hc with h | h
    · rw [h]; exact List.length_take_le bs l
    · exact ih h

theorem blockSize_covers (v : Nat) : v ≤ blockSize v * MAX_BLOCKS_PER_BEAM := by
  simp only [blockSize, MAX_BLOCKS_PER_BEAM]
  omega

theorem flatten_flatten_map {L : List (List α)} {g : List α → List (List α)}
    (h : ∀ x ∈ L, (g x).flatten = x) : ((L.map g).flatten).flatten = L.flatten := by
  induction L with
  | nil => rfl
  | cons a as ih =>
    simp only [List.map_cons, List.flatten_cons, List.flatten_append]
    rw [h a (List.mem_cons_self a as), ih (fun x hx => h x (List.mem_cons_of_mem a hx))]

theorem rowChunks_flatten {row : List TopK} {beams vocab : Nat}
    (h : row.length ≤ beams * vocab) :
    (rowChunks row beams vocab).flatten = row := by
  have h1 : ∀ seg ∈ splitBlocks row vocab beams,
      (splitBlocks seg (blockSize vocab) MAX_BLOCKS_PER_BEAM).flatten = seg := by
    intro seg hseg
    exact splitBlocks_flatten_of_le
      (le_trans (length_le_of_mem_splitBlocks hseg) (blockSize_covers vocab))
  unfold rowChunks
  rw [flatten_flatten_map h1]
  exact splitBlocks_flatten_of_le (by rw [Nat.mul_comm]; exact h)

theorem append_middle_perm (a b x y : List α) :
    List.Perm ((a ++ b) ++ (x ++ y)) ((a ++ x) ++ (b ++ y)) := by
  have h : List.Perm (b ++ (x ++ y)) (x ++ (b ++ y)) := by
    simp only [← List.append_assoc]
    exact List.Perm.append_right y List.perm_append_comm
  have h2 := h.append_left a
  simp only [← List.append_assoc] at h2 ⊢
  exact h2

theorem perm_flatten_split (L : List (List TopK)) (f g : List TopK → List TopK)
    (h : ∀ c ∈ L, List.Perm c (f c ++ g c)) :
    List.Perm L.flatten ((L.map f).flatten ++ (L.map g).flatten) := by
  induction L with
  | nil => simp
  | cons a as ih =>
    simp only [List.flatten_cons, List.map_cons]
    have ha := h a (List.mem_cons_self a as)
    have ih2 := ih (fun c hc => h c (List.mem_cons_of_mem a hc))
    exact (ha.append ih2).trans (append_middle_perm (f a) (g a) _ _)

theorem take_sortDesc_dominates {C : List TopK} {N : Nat} {v : Rat}
    (hcount : N ≤ List.countP (fun c => decide (v ≤ c.u)) C) :
    ∀ x ∈ (sortDesc C).take N, v ≤ x.u := by
  intro x hx
  by_contra hvx
  have hperm : List.countP (fun c => decide (v ≤ c.u)) (sortDesc C) =
      List.countP (fun c => decide (v ≤ c.u)) C :=
    (sortDesc_perm C).countP_eq _
  have hdrop : List.countP (fun c => decide (v ≤ c.u)) ((sortDesc C).drop N) = 0 := by
    rw [List.countP_eq_zero]
    intro z hz
    have hrel : z.u ≤ x.u := (sortDesc_sorted C).rel_of_mem_take_of_mem_drop hx hz
    simp only [decide_eq_true_eq]
    intro hvz
    exact hvx (le_trans hvz hrel)
  have htake : List.countP (fun c => decide (v ≤ c.u)) ((sortDesc C).take N) < N := by
    have hne : List.countP (fun c => decide (v ≤ c.u)) ((sortDesc C).take N) ≠
        ((sortDesc C).take N).length := by
      intro hEq
      have hall := List.countP_eq_length.mp hEq x hx
      simp only [decide_eq_true_eq] at hall
      exact hvx hall
    have hle := List.countP_le_length (fun c => decide (v ≤ c.u))
      (l := (sortDesc C).take N)
    have hlen := List.length_take_le N (sortDesc C)
    omega
  have hCsplit := List.countP_append (fun c => decide (v ≤ c.u))
    ((sortDesc C).take N) ((sortDesc C).drop N)
  rw [List.take_append_drop] at hCsplit
  omega

theorem min_sum_le (N : Nat) (L : List Nat) :
    min N L.sum ≤ (L.map (fun a => min N a)).sum := by
  induction L with
  | nil => simp
  | cons a as ih =>
    simp only [List.sum_cons, List.map_cons]
    omega

theorem stage1_flatten_length (chunks : List (List TopK)) (k : Nat) :
    (stage1 chunks k).flatten.length = (chunks.map (fun c => min k c.length)).sum := by
  unfold stage1
  rw [List.length_flatten, List.map_map]
  congr 1
  apply List.map_congr_left
  intro c _
  simp [List.length_take, sortDesc_length]

theorem candidates_length_ge {chunks : List (List TopK)} {k : Nat}
    (h : k ≤ chunks.flatten.length) : k ≤ (stage1 chunks k).flatten.length := by
  rw [stage1_flatten_length]
  have hms := min_sum_le k (chunks.map List.length)
  rw [← List.length_flatten] at hms
  rw [List.map_map] at hms
  have hmin : min k chunks.flatten.length = k := Nat.min_eq_left h
  rw [hmin] at hms
  have hfun : ((fun a => min k a) ∘ List.length) = (fun c : List TopK => min k c.length) := rfl
  rw [hfun] at hms
  exact hms

theorem pipeline_rowTopProperty (row : List Rat) (beams vocab N : Nat)
    (hrow : row.length ≤ beams * vocab) :
    rowTopProperty row
      (stage2 ((stage1 (rowChunks (enumRow row) beams vocab) N).flatten) N) := by
  have hflat : (rowChunks (enumRow row) beams vocab).flatten = enumRow row := by
    apply rowChunks_flatten
    simpa [enumRow, List.enum_length] using hrow
  refine ⟨?_, ?_⟩
  · exact List.Pairwise.sublist
      (List.take_sublist N (sortDesc ((stage1 (rowChunks (enumRow row) beams vocab) N).flatten)))
      (sortDesc_sorted _)
  · refine ⟨(sortDesc ((stage1 (rowChunks (enumRow row) beams vocab) N).flatten)).drop N ++
      ((rowChunks (enumRow row) beams vocab).map (fun c => (sortDesc c).drop N)).flatten,
      ?_, ?_⟩
    · -- the selected records, the merge-stage remainder and the stage-1
      -- leftovers together are a permutation of the enumerated row
      have hsplit := perm_flatten_split (rowChunks (enumRow row) beams vocab)
        (fun c => (sortDesc c).take N) (fun c => (sortDesc c).drop N)
        (fun c _ => by
          have hp : List.Perm c (sortDesc c) := (sortDesc_perm c).symm
          rw [List.take_append_drop]
          exact hp)
      rw [hflat] at hsplit
      have hC : ((rowChunks (enumRow row) beams vocab).map
          (fun c => (sortDesc c).take N)) = stage1 (rowChunks (enumRow row) beams vocab) N := rfl
      rw [hC] at hsplit
      have hstep : stage2 ((stage1 (rowChunks (enumRow row) beams vocab) N).flatten) N ++
          ((sortDesc ((stage1 (rowChunks (enumRow row) beams vocab) N).flatten)).drop N ++
            ((rowChunks (enumRow row) beams vocab).map (fun c => (sortDesc c).drop N)).flatten) =
          sortDesc ((stage1 (rowChunks (enumRow row) beams vocab) N).flatten) ++
            ((rowChunks (enumRow row) beams vocab).map (fun c => (sortDesc c).drop N)).flatten := by
        rw [stage2, ← List.append_assoc, List.take_append_drop]
      rw [hstep]
      exact ((List.Perm.append_right _ (sortDesc_perm _)).trans hsplit.symm)
    · intro x hx y hy
      rcases List.mem_append.mp hy with hy1 | hy2
      · exact (sortDesc_sorted _).rel_of_mem_take_of_mem_drop hx hy1
      · rcases List.mem_flatten.mp hy2 with ⟨l, hl, hyl⟩
        rcases List.mem_map.mp hl with ⟨c, hc, rfl⟩
        have hty : ∀ z ∈ (sortDesc c).take N, y.u ≤ z.u := by
          intro z hz
          exact (sortDesc_sorted c).rel_of_mem_take_of_mem_drop hz hyl
        have htlen : ((sortDesc c).take N).length = N := by
          have hpos : 0 < ((sortDesc c).drop N).length :=
            List.length_pos.mpr (List.ne_nil_of_mem hyl)
          rw [List.length_drop] at hpos
          rw [List.length_take]
          omega
        have hcount : N ≤ List.countP (fun z => decide (y.u ≤ z.u))
            ((stage1 (rowChunks (enumRow row) beams vocab) N).flatten) := by
          have hmem : (sortDesc c).take N ∈ stage1 (rowChunks (enumRow row) beams vocab) N :=
            List.mem_map_of_mem _ hc
          have hsub := List.sublist_flatten_of_mem hmem
          have hct : List.countP (fun z => decide (y.u ≤ z.u)) ((sortDesc c).take N) = N := by
            rw [List.countP_eq_length.mpr, htlen]
            intro a ha
            simpa using hty a ha
          calc N = List.countP (fun z => decide (y.u ≤ z.u)) ((sortDesc c).take N) := hct.symm
            _ ≤ _ := hsub.countP_le _
        exact take_sortDesc_dominates hcount x hx

/- Indexing helper lemmas for the flattened result buffer. -/

theorem map_range_getD (f : Nat → α) (n i : Nat) (d : α) (h : i < n) :
    ((List.range n).map f).getD i d = f i := by
  rw [List.getD_eq_getElem?_getD, List.getElem?_map, List.getElem?_range h]
  rfl

theorem getD_append_add (l l2 : List α) (d : α) (i : Nat) :
    (l ++ l2).getD (l.length + i) d = l2.getD i d := by
  rw [List.getD_eq_getElem?_getD, List.getD_eq_getElem?_getD,
    List.getElem?_append_right (Nat.le_add_right _ _), Nat.add_sub_cancel_left]

theorem flatten_length_uniform (L : List (List α)) (N : Nat)
    (h : ∀ l ∈ L, l.length = N) : L.flatten.length = L.length * N := by
  rw [List.length_flatten, List.map_congr_left h, List.map_const', List.sum_replicate,
    smul_eq_mul]

theorem flatten_getD_uniform (L : List (List α)) (N : Nat)
    (h : ∀ l ∈ L, l.length = N) (b j : Nat) (hb : b < L.length) (hj : j < N) (d : α) :
    L.flatten.getD (b * N + j) d = (L.getD b []).getD j d := by
  induction L generalizing b with
  | nil => simp at hb
  | cons a as ih =>
    match b with
    | 0 =>
      simp only [List.flatten_cons, Nat.zero_mul, Nat.zero_add, List.getD_cons_zero]
      rw [List.getD_append]
      rw [h a (List.mem_cons_self a as)]
      exact hj
    | b + 1 =>
      simp only [List.flatten_cons, List.getD_cons_succ]
      have hidx : (b + 1) * N + j = a.length + (b * N + j) := by
        rw [h a (List.mem_cons_self a as)]
        ring
      rw [hidx, getD_append_add]
      exact ih (fun l hl => h l (List.mem_cons_of_mem a hl)) b
        (by simpa using Nat.lt_of_succ_lt_succ (Nat.succ_lt_succ (by simpa using hb)))

/- Lengths of the per-batch rows and result records. -/

theorem batchRow_length {probs : List Rat} {dimBatch beams vocab b : Nat}
    (hdata : probs.length = dimBatch * (beams * vocab)) (hb : b < dimBatch) :
    (batchRow probs b beams vocab).length = beams * vocab := by
  unfold batchRow
  rw [List.length_take, List.length_drop, hdata]
  have hmul : (b + 1) * (beams * vocab) ≤ dimBatch * (beams * vocab) :=
    Nat.mul_le_mul_right _ hb
  rw [Nat.add_mul, Nat.one_mul] at hmul
  omega

theorem batchTopK_length {probs : List Rat} {dimBatch beams vocab b N : Nat}
    (hdata : probs.length = dimBatch * (beams * vocab)) (hb : b < dimBatch)
    (hN : N ≤ beams * vocab) :
    (batchTopK probs b beams N vocab).length = N := by
  have hrowlen : (batchRow probs b beams vocab).length = beams * vocab :=
    batchRow_length hdata hb
  have henu : (enumRow (batchRow probs b beams vocab)).length = beams * vocab := by
    simp [enumRow, List.enum_length, hrowlen]
  have hflat : (rowChunks (enumRow (batchRow probs b beams vocab)) beams vocab).flatten =
      enumRow (batchRow probs b beams vocab) :=
    rowChunks_flatten (by rw [henu])
  have hge : N ≤ (stage1 (rowChunks (enumRow (batchRow probs b beams vocab)) beams vocab)
      N).flatten.length := by
    apply candidates_length_ge
    rw [hflat, henu]
    exact hN
  unfold batchTopK stage2 batchCandidates
  rw [List.length_take, sortDesc_length]
  exact Nat.min_eq_left hge

theorem kernelResults_length {probs : List Rat} {dimBatch beams vocab N : Nat}
    (hdata : probs.length = dimBatch * (beams * vocab)) (hN : N ≤ beams * vocab) :
    (kernelResults probs dimBatch beams N vocab).length = dimBatch * N := by
  unfold kernelResults
  rw [flatten_length_uniform _ N, List.length_map, List.length_range]
  intro l hl
  rcases List.mem_map.mp hl with ⟨b, hb, rfl⟩
  exact batchTopK_length hdata (List.mem_range.mp hb) hN

theorem kernelResults_getD {probs : List Rat} {dimBatch beams vocab N b j : Nat}
    (hdata : probs.length = dimBatch * (beams * vocab)) (hN : N ≤ beams * vocab)
    (hb : b < dimBatch) (hj : j < N) :
    (kernelResults probs dimBatch beams N vocab).getD (b * N + j) default =
      (batchTopK probs b beams N vocab).getD j default := by
  unfold kernelResults
  rw [flatten_getD_uniform _ N]
  · congr 1
    have := map_range_getD (fun b => batchTopK probs b beams N vocab) dimBatch b [] hb
    exact this
  · intro l hl
    rcases List.mem_map.mp hl with ⟨b2, hb2, rfl⟩
    exact batchTopK_length hdata (List.mem_range.mp hb2) hN
  · rw [List.length_map, List.length_range]
    exact hb
  · exact hj

/- Normal forms of getPairs and getNBestList under the caller contract. -/

theorem getPairs_eq (e : NthElementGPU) (numElts : Nat) (outKeys : List Nat)
    (outValues : List Rat) :
    e.getPairs numElts outKeys outValues =
      ({ e with topsHost := (List.range numElts).map (fun i => e.tops.getD i default)
          ++ e.topsHost.drop numElts },
       outKeys ++ (List.range numElts).map (fun i => (e.tops.getD i default).p),
       outValues ++ (List.range numElts).map (fun i => (e.tops.getD i default).u)) := by
  have hread : ∀ i ∈ List.range numElts,
      (((List.range numElts).map (fun i => e.tops.getD i default) ++
        e.topsHost.drop numElts).getD i default) = e.tops.getD i default := by
    intro i hi
    have hi2 := List.mem_range.mp hi
    rw [List.getD_append _ _ _ _ (by rw [List.length_map, List.length_range]; exact hi2)]
    exact map_range_getD _ _ _ _ hi2
  have hkeys := List.map_congr_left
    (fun i hi => congrArg TopK.p (hread i hi))
  have hvals := List.map_congr_left
    (fun i hi => congrArg TopK.u (hread i hi))
  simp only [NthElementGPU.getPairs, hkeys, hvals]

theorem getNBestList_pre_eq (e : NthElementGPU) (scores : Tensor) (N : Nat)
    (costs0 : List Rat) (keys0 : List Nat) (isFirst : Bool)
    (h1 : scores.shape.atNeg2 = (if isFirst then 1 else N))
    (h2 : scores.shape.atNeg1 ≤ MAX_VOCAB_SIZE)
    (h3 : scores.shape.atNeg4 ≤ e.maxBatchSize_)
    (h4 : max N scores.shape.atNeg2 ≤ e.maxBeamSize_)
    (h5 : supportedScoreType scores.ty = true) :
    e.getNBestList scores N costs0 keys0 isFirst =
      if keys0.length + scores.shape.atNeg4 * N ≠ scores.shape.atNeg4 * N then
        .error ⟨"Expected and got different value counts during topk",
          costs0 ++ (appendedRecords e scores N).map (fun r => r.u),
          keys0 ++ (appendedRecords e scores N).map (fun r => r.p)⟩
      else
        .ok (engineAfter e scores N,
          costs0 ++ (appendedRecords e scores N).map (fun r => r.u),
          keys0 ++ (appendedRecords e scores N).map (fun r => r.p)) := by
  have c1 : ¬ (scores.shape.atNeg2 ≠ (if isFirst then 1 else N)) := by simp [h1]
  have c2 : ¬ (scores.shape.atNeg1 > MAX_VOCAB_SIZE) := by omega
  have c3 : ¬ (scores.shape.atNeg4 > e.maxBatchSize_) := by omega
  have c4 : ¬ (max N scores.shape.atNeg2 > e.maxBeamSize_) := by omega
  rw [NthElementGPU.getNBestList]
  simp only [if_neg c1, if_neg c2, if_neg c3, if_neg c4, h5, if_true]
  rw [getPairs_eq]
  simp only [List.length_append, List.length_map, List.length_range]
  simp only [appendedRecords, engineAfter, launchedEngine, List.map_map, Function.comp_def]

theorem getNBestList_abort_iff_aux (e : NthElementGPU) (scores : Tensor) (N : Nat)
    (costs0 : List Rat) (keys0 : List Nat) (isFirst : Bool) :
    isAbort (e.getNBestList scores N costs0 keys0 isFirst) = true ↔
      (scores.shape.atNeg2 ≠ (if isFirst then 1 else N) ∨
       scores.shape.atNeg1 > MAX_VOCAB_SIZE ∨
       scores.shape.atNeg4 > e.maxBatchSize_ ∨
       max N scores.shape.atNeg2 > e.maxBeamSize_ ∨
       supportedScoreType scores.ty = false ∨
       keys0 ≠ []) := by
  by_cases c1 : scores.shape.atNeg2 ≠ (if isFirst then 1 else N)
  · have hres : e.getNBestList scores N costs0 keys0 isFirst =
        .error ⟨"Input tensor has wrong beam dim??", costs0, keys0⟩ := by
      rw [NthElementGPU.getNBestList, if_pos c1]
    rw [hres]
    exact ⟨fun _ => Or.inl c1, fun _ => rfl⟩
  have h1 : scores.shape.atNeg2 = (if isFirst then 1 else N) := not_ne_iff.mp c1
  by_cases c2 : scores.shape.atNeg1 > MAX_VOCAB_SIZE
  · have hres : e.getNBestList scores N costs0 keys0 isFirst =
        .error ⟨"GetNBestList(): actual vocab size exceeds MAX_VOCAB_SIZE", costs0, keys0⟩ := by
      rw [NthElementGPU.getNBestList, if_neg c1, if_pos c2]
    rw [hres]
    exact ⟨fun _ => Or.inr (Or.inl c2), fun _ => rfl⟩
  by_cases c3 : scores.shape.atNeg4 > e.maxBatchSize_
  · have hres : e.getNBestList scores N costs0 keys0 isFirst =
        .error ⟨"GetNBestList(): actual batch size exceeds initialization parameter",
          costs0, keys0⟩ := by
      rw [NthElementGPU.getNBestList, if_neg c1, if_neg c2, if_pos c3]
    rw [hres]
    exact ⟨fun _ => Or.inr (Or.inr (Or.inl c3)), fun _ => rfl⟩
  by_cases c4 : max N scores.shape.atNeg2 > e.maxBeamSize_
  · have hres : e.getNBestList scores N costs0 keys0 isFirst =
        .error ⟨"GetNBestList(): actual beam size exceeds initialization parameter",
          costs0, keys0⟩ := by
      rw [NthElementGPU.getNBestList, if_neg c1, if_neg c2, if_neg c3, if_pos c4]
    rw [hres]
    exact ⟨fun _ => Or.inr (Or.inr (Or.inr (Or.inl c4))), fun _ => rfl⟩
  by_cases c5 : supportedScoreType scores.ty = true
  · rw [getNBestList_pre_eq e scores N costs0 keys0 isFirst h1
      (Nat.le_of_not_lt c2) (Nat.le_of_not_lt c3) (Nat.le_of_not_lt c4) c5]
    by_cases c6 : keys0 = []
    · subst c6
      rw [if_neg (by simp)]
      constructor
      · intro h; exact absurd h (by simp [isAbort])
      · rintro (h | h | h | h | h | h)
        · exact absurd h1 h
        · omega
        · omega
        · omega
        · rw [c5] at h; cases h
        · exact absurd rfl h
    · rw [if_pos (by
        have : keys0.length ≠ 0 := fun hz => c6 (List.length_eq_zero.mp hz)
        omega)]
      exact ⟨fun _ => Or.inr (Or.inr (Or.inr (Or.inr (Or.inr c6)))), fun _ => rfl⟩
  · have c5f : supportedScoreType scores.ty = false := by
      cases h : supportedScoreType scores.ty
      · rfl
      · exact absurd h c5
    have hres : e.getNBestList scores N costs0 keys0 isFirst =
        .error ⟨"getNBestList not implemented for type", costs0, keys0⟩ := by
      rw [NthElementGPU.getNBestList, if_neg c1, if_neg c2, if_neg c3, if_neg c4]
      simp [c5f]
    rw [hres]
    exact ⟨fun _ => Or.inr (Or.inr (Or.inr (Or.inr (Or.inl c5f)))), fun _ => rfl⟩

theorem getNBestList_precondition_abort_aux (e : NthElementGPU) (scores : Tensor) (N : Nat)
    (costs0 : List Rat) (keys0 : List Nat) (isFirst : Bool)
    (h : scores.shape.atNeg2 ≠ (if isFirst then 1 else N) ∨
         scores.shape.atNeg1 > MAX_VOCAB_SIZE ∨
         scores.shape.atNeg4 > e.maxBatchSize_ ∨
         max N scores.shape.atNeg2 > e.maxBeamSize_ ∨
         supportedScoreType scores.ty = false) :
    ∃ msg, e.getNBestList scores N costs0 keys0 isFirst = .error ⟨msg, costs0, keys0⟩ := by
  by_cases c1 : scores.shape.atNeg2 ≠ (if isFirst then 1 else N)
  · exact ⟨_, by rw [NthElementGPU.getNBestList, if_pos c1]⟩
  by_cases c2 : scores.shape.atNeg1 > MAX_VOCAB_SIZE
  · exact ⟨_, by rw [NthElementGPU.getNBestList, if_neg c1, if_pos c2]⟩
  by_cases c3 : scores.shape.atNeg4 > e.maxBatchSize_
  · exact ⟨_, by rw [NthElementGPU.getNBestList, if_neg c1, if_neg c2, if_pos c3]⟩
  by_cases c4 : max N scores.shape.atNeg2 > e.maxBeamSize_
  · exact ⟨_, by rw [NthElementGPU.getNBestList, if_neg c1, if_neg c2, if_neg c3, if_pos c4]⟩
  have c5f : supportedScoreType scores.ty = false := by
    rcases h with h | h | h | h | h
    · exact absurd h c1
    · exact absurd h c2
    · exact absurd h c3
    · exact absurd h c4
    · exact h
  refine ⟨"getNBestList not implemented for type", ?_⟩
  rw [NthElementGPU.getNBestList, if_neg c1, if_neg c2, if_neg c3, if_neg c4]
  simp [c5f]

/- Helper lemmas showing a second identical call overwrites the scratch
buffers with the same contents. -/

theorem drop_append_eq {A B : List α} {n : Nat} (h : A.length = n) : (A ++ B).drop n = B := by
  subst h
  exact List.drop_left A B

theorem drop_map_append (c : List TopK) (f : TopK → β) (B : List β) :
    ((c.map f) ++ B).drop c.length = B :=
  drop_append_eq (List.length_map c f)

theorem appendedRecords_length (e : NthElementGPU) (scores : Tensor) (N : Nat) :
    (appendedRecords e scores N).length = scores.shape.atNeg4 * N := by
  simp [appendedRecords]

theorem engine_ext {a b : NthElementGPU}
    (h1 : a.deviceId_ = b.deviceId_) (h2 : a.maxBeamSize_ = b.maxBeamSize_)
    (h3 : a.maxBatchSize_ = b.maxBatchSize_) (h4 : a.topk_tmp_id_buf = b.topk_tmp_id_buf)
    (h5 : a.topk_tmp_val_buf = b.topk_tmp_val_buf) (h6 : a.tops = b.tops)
    (h7 : a.topsHost = b.topsHost) : a = b := by
  cases a
  cases b
  simp_all

theorem launched_tops_engineAfter (e : NthElementGPU) (scores : Tensor) (N : Nat) :
    (launchedEngine (engineAfter e scores N) scores N).tops =
      (launchedEngine e scores N).tops := by
  show (kernelResults scores.data scores.shape.atNeg4 scores.shape.atNeg2 N scores.shape.atNeg1
      ++ (engineAfter e scores N).tops.drop
        (kernelResults scores.data scores.shape.atNeg4 scores.shape.atNeg2 N
          scores.shape.atNeg1).length) =
    (kernelResults scores.data scores.shape.atNeg4 scores.shape.atNeg2 N scores.shape.atNeg1
      ++ e.tops.drop
        (kernelResults scores.data scores.shape.atNeg4 scores.shape.atNeg2 N
          scores.shape.atNeg1).length)
  have htops : (engineAfter e scores N).tops =
      kernelResults scores.data scores.shape.atNeg4 scores.shape.atNeg2 N scores.shape.atNeg1
        ++ e.tops.drop
          (kernelResults scores.data scores.shape.atNeg4 scores.shape.atNeg2 N
            scores.shape.atNeg1).length := rfl
  rw [htops, drop_append_eq rfl]

theorem appendedRecords_engineAfter (e : NthElementGPU) (scores : Tensor) (N : Nat) :
    appendedRecords (engineAfter e scores N) scores N = appendedRecords e scores N := by
  unfold appendedRecords
  rw [launched_tops_engineAfter]

theorem engineAfter_idem (e : NthElementGPU) (scores : Tensor) (N : Nat) :
    engineAfter (engineAfter e scores N) scores N = engineAfter e scores N := by
  apply engine_ext
  · rfl
  · rfl
  · rfl
  · show ((((List.range scores.shape.atNeg4).map
        (fun b => batchCandidates scores.data b scores.shape.atNeg2 N
          scores.shape.atNeg1)).flatten).map (fun r => r.p) ++
      (engineAfter e scores N).topk_tmp_id_buf.drop
        (((List.range scores.shape.atNeg4).map
          (fun b => batchCandidates scores.data b scores.shape.atNeg2 N
            scores.shape.atNeg1)).flatten).length) = _
    rw [show (engineAfter e scores N).topk_tmp_id_buf =
        ((((List.range scores.shape.atNeg4).map
          (fun b => batchCandidates scores.data b scores.shape.atNeg2 N
            scores.shape.atNeg1)).flatten).map (fun r => r.p) ++
        e.topk_tmp_id_buf.drop
          (((List.range scores.shape.atNeg4).map
            (fun b => batchCandidates scores.data b scores.shape.atNeg2 N
              scores.shape.atNeg1)).flatten).length) from rfl,
      drop_map_append]
  · show ((((List.range scores.shape.atNeg4).map
        (fun b => batchCandidates scores.data b scores.shape.atNeg2 N
          scores.shape.atNeg1)).flatten).map (fun r => r.u) ++
      (engineAfter e scores N).topk_tmp_val_buf.drop
        (((List.range scores.shape.atNeg4).map
          (fun b => batchCandidates scores.data b scores.shape.atNeg2 N
            scores.shape.atNeg1)).flatten).length) = _
    rw [show (engineAfter e scores N).topk_tmp_val_buf =
        ((((List.range scores.shape.atNeg4).map
          (fun b => batchCandidates scores.data b scores.shape.atNeg2 N
            scores.shape.atNeg1)).flatten).map (fun r => r.u) ++
        e.topk_tmp_val_buf.drop
          (((List.range scores.shape.atNeg4).map
            (fun b => batchCandidates scores.data b scores.shape.atNeg2 N
              scores.shape.atNeg1)).flatten).length) from rfl,
      drop_map_append]
  · exact launched_tops_engineAfter e scores N
  · show appendedRecords (engineAfter e scores N) scores N ++
      (launchedEngine (engineAfter e scores N) scores N).topsHost.drop
        (scores.shape.atNeg4 * N) = (engineAfter e scores N).topsHost
    rw [appendedRecords_engineAfter]
    have hh : (launchedEngine (engineAfter e scores N) scores N).topsHost =
        (engineAfter e scores N).topsHost := rfl
    rw [hh]
    have hh2 : (engineAfter e scores N).topsHost =
        appendedRecords e scores N ++
          (launchedEngine e scores N).topsHost.drop (scores.shape.atNeg4 * N) := rfl
    rw [hh2, drop_append_eq (appendedRecords_length e scores N)]

namespace gpu

theorem stepBackend_latch {op : BackendOp} {b : Backend} {ls : LogState}
    {r : Backend × LogState} (h : stepBackend op b ls = some r) :
    (b.cublasHandle_.isSome → r.1.cublasHandle_.isSome) ∧
    (b.cusparseHandle_.isSome → r.1.cusparseHandle_.isSome) := by
  cases op with
  | opSetInt16 x =>
    simp only [stepBackend, Backend.setInt16, Option.some.injEq] at h
    rw [← h]
    exact ⟨id, id⟩
  | opSetInt8 x =>
    simp only [stepBackend, Backend.setInt8, Option.some.injEq] at h
    rw [← h]
    exact ⟨id, id⟩
  | opSetShifted x =>
    simp only [stepBackend, Backend.setShifted, Option.some.injEq] at h
    rw [← h]
    exact ⟨id, id⟩
  | opSetShiftedAll x =>
    simp only [stepBackend, Backend.setShiftedAll, Option.some.injEq] at h
    rw [← h]
    exact ⟨id, id⟩
  | opSetDumpQuantMult x =>
    simp only [stepBackend, Backend.setDumpQuantMult, Option.some.injEq] at h
    rw [← h]
    exact ⟨id, id⟩
  | opSetPrecomputedAlpha x =>
    simp only [stepBackend, Backend.setPrecomputedAlpha, Option.some.injEq] at h
    rw [← h]
    exact ⟨id, id⟩
  | opSetLegacyBatchedGemm x =>
    simp only [stepBackend, Backend.setLegacyBatchedGemm, Option.some.injEq] at h
    rw [← h]
    exact ⟨id, id⟩
  | opSetTensorCoreGemm x =>
    simp only [stepBackend] at h
    rcases h2 : b.setTensorCoreGemm x with m | b2
    · rw [h2] at h
      cases h
    · rw [h2] at h
      simp only [Option.some.injEq] at h
      have hb2 : b2.cublasHandle_ = b.cublasHandle_ ∧ b2.cusparseHandle_ = b.cusparseHandle_ := by
        unfold Backend.setTensorCoreGemm at h2
        split_ifs at h2
        · injection h2 with h3
          rw [← h3]
          exact ⟨rfl, rfl⟩
        · injection h2 with h3
          rw [← h3]
          exact ⟨rfl, rfl⟩
      rw [← h]
      rw [hb2.1, hb2.2]
      exact ⟨id, id⟩
  | opSetFused x =>
    simp only [stepBackend, Backend.setFused, Option.some.injEq] at h
    rw [← h]
    exact ⟨id, id⟩
  | opGetCublasHandle =>
    simp only [stepBackend, Option.some.injEq] at h
    rw [← h]
    unfold Backend.getCublasHandle
    rcases hc : b.cublasHandle_ with m | h0
    · simp [hc]
    · simp [hc]
  | opGetCusparseHandle =>
    simp only [stepBackend, Option.some.injEq] at h
    rw [← h]
    unfold Backend.getCusparseHandle
    rcases hc : b.cusparseHandle_ with m | h0
    · simp [hc]
    · simp [hc]

theorem runBackend_latch (ops : List BackendOp) (b : Backend) (ls : LogState)
    (r : Backend × LogState) (h : runBackend ops b ls = some r) :
    (b.cublasHandle_.isSome → r.1.cublasHandle_.isSome) ∧
    (b.cusparseHandle_.isSome → r.1.cusparseHandle_.isSome) := by
  induction ops generalizing b ls with
  | nil =>
    simp only [runBackend, Option.some.injEq] at h
    rw [← h]
    exact ⟨id, id⟩
  | cons op rest ih =>
    simp only [runBackend] at h
    rcases hstep : stepBackend op b ls with m | p
    · rw [hstep] at h
      cases h
    · rw [hstep] at h
      have h1 := stepBackend_latch hstep
      have h2 := ih p.1 p.2 h
      exact ⟨fun hs => h2.1 (h1.1 hs), fun hs => h2.2 (h1.2 hs)⟩

theorem logOnce_mem (site : LogSite) (msg : String) (ls : LogState) :
    site ∈ (logOnce site msg ls).onceSites := by
  unfold logOnce
  split_ifs with h
  · exact h
  · exact List.mem_cons_self _ _

theorem logOnce_already (site : LogSite) (msg : String) (ls : LogState)
    (h : site ∈ ls.onceSites) : logOnce site msg ls = ls := by
  unfold logOnce
  rw [if_pos h]

theorem logOnce_fresh (site : LogSite) (msg : String) (ls : LogState)
    (h : site ∉ ls.onceSites) : (logOnce site msg ls).messages = ls.messages ++ [msg] := by
  unfold logOnce
  rw [if_neg h]

/-- C6: setTensorCoreGemm(true) aborts fatally when the cached
compute-capability major version is below 7; at major version 7 or above it
succeeds and a subsequent useTensorCoreGemm() query reports true. -/
theorem setTensorCoreGemm_capability_gate (b : Backend) :
    (b.compute_.major < 7 →
      b.setTensorCoreGemm true =
        .error "Compute capability below 7 do not support tensor cores") ∧
    (7 ≤ b.compute_.major →
      ∃ b2, b.setTensorCoreGemm true = .ok b2 ∧ b2.useTensorCoreGemm = true) := by
  constructor
  · intro hlt
    simp [Backend.setTensorCoreGemm, hlt]
  · intro hge
    refine ⟨{ b with tensorCore_ := true }, ?_, rfl⟩
    simp [Backend.setTensorCoreGemm, not_lt.mpr hge]

/-- C6 witness: on cached major version 6 enabling tensor cores aborts; on
major version 7 it succeeds and the capability query reports true. -/
theorem setTensorCoreGemm_capability_gate_witness :
    ((Backend.init 0 0 ⟨6, 0⟩).setTensorCoreGemm true =
      .error "Compute capability below 7 do not support tensor cores") ∧
    (∃ b2, (Backend.init 0 0 ⟨7, 5⟩).setTensorCoreGemm true = .ok b2 ∧
      b2.useTensorCoreGemm = true) :=
  ⟨(setTensorCoreGemm_capability_gate (Backend.init 0 0 ⟨6, 0⟩)).1 (by decide),
   (setTensorCoreGemm_capability_gate (Backend.init 0 0 ⟨7, 5⟩)).2 (by decide)⟩

/-- C7: each math-library handle is created, bound to the per-thread stream
and cached on first access, returned from the cache without creation on later
accesses, and once initialized never returns to the uninitialized state over
any run of backend operations. -/
theorem mathHandles_lazy_init_latch :
    (∀ b : Backend, b.cublasHandle_ = none →
      (b.getCublasHandle).2.cublasHandle_ = some (b.getCublasHandle).1 ∧
      (b.getCublasHandle).1.stream = CudaStream.perThread ∧
      (b.getCublasHandle).2.nextHandleId = b.nextHandleId + 1) ∧
    (∀ (b : Backend) (h : MathHandle), b.cublasHandle_ = some h →
      b.getCublasHandle = (h, b)) ∧
    (∀ b : Backend, b.cusparseHandle_ = none →
      (b.getCusparseHandle).2.cusparseHandle_ = some (b.getCusparseHandle).1 ∧
      (b.getCusparseHandle).1.stream = CudaStream.perThread ∧
      (b.getCusparseHandle).2.nextHandleId = b.nextHandleId + 1) ∧
    (∀ (b : Backend) (h : MathHandle), b.cusparseHandle_ = some h →
      b.getCusparseHandle = (h, b)) ∧
    (∀ (ops : List BackendOp) (b : Backend) (ls : LogState) (r : Backend × LogState),
      runBackend ops b ls = some r →
      (b.cublasHandle_.isSome → r.1.cublasHandle_.isSome) ∧
      (b.cusparseHandle_.isSome → r.1.cusparseHandle_.isSome)) := by
  refine ⟨?_, ?_, ?_, ?_, fun ops b ls r h => runBackend_latch ops b ls r h⟩
  · intro b hb
    unfold Backend.getCublasHandle
    rw [hb]
    exact ⟨rfl, rfl, rfl⟩
  · intro b h hb
    unfold Backend.getCublasHandle
    rw [hb]
  · intro b hb
    unfold Backend.getCusparseHandle
    rw [hb]
    exact ⟨rfl, rfl, rfl⟩
  · intro b h hb
    unfold Backend.getCusparseHandle
    rw [hb]

/-- C7 witness: on a fresh backend the first dense-handle access caches the
created handle, the second access returns it with the state unchanged, the
first sparse-handle access caches its handle, and an initialized handle stays
initialized across a subsequent operation. -/
theorem mathHandles_lazy_init_latch_witness :
    ((Backend.init 0 0 ⟨7, 0⟩).getCublasHandle).2.cublasHandle_ =
      some ((Backend.init 0 0 ⟨7, 0⟩).getCublasHandle).1 ∧
    ((Backend.init 0 0 ⟨7, 0⟩).getCublasHandle).2.getCublasHandle =
      (((Backend.init 0 0 ⟨7, 0⟩).getCublasHandle).1,
        ((Backend.init 0 0 ⟨7, 0⟩).getCublasHandle).2) ∧
    ((Backend.init 0 0 ⟨7, 0⟩).getCusparseHandle).2.cusparseHandle_ =
      some ((Backend.init 0 0 ⟨7, 0⟩).getCusparseHandle).1 ∧
    ((((Backend.init 0 0 ⟨7, 0⟩).getCublasHandle).2.setFused true)).cublasHandle_.isSome :=
  ⟨(mathHandles_lazy_init_latch.1 _ rfl).1,
   mathHandles_lazy_init_latch.2.1 _ ((Backend.init 0 0 ⟨7, 0⟩).getCublasHandle).1 rfl,
   (mathHandles_lazy_init_latch.2.2.1 _ rfl).1,
   (mathHandles_lazy_init_latch.2.2.2.2 [BackendOp.opSetFused true]
      ((Backend.init 0 0 ⟨7, 0⟩).getCublasHandle).2 ⟨[], []⟩
      ((((Backend.init 0 0 ⟨7, 0⟩).getCublasHandle).2.setFused true), ⟨[], []⟩) rfl).1 rfl⟩

/-- C8: the four setters for features unsupported on GPU leave the backend
state unchanged for any argument, their getters always report false, a second
call to the same setter emits no further message, and a first call on a fresh
once-latch emits exactly the one notice. -/
theorem unsupported_setters_noop (b : Backend) (ls : LogState) (x y : Bool) :
    ((b.setInt16 x ls).1 = b ∧ (b.setShifted x ls).1 = b ∧
     (b.setShiftedAll x ls).1 = b ∧ (b.setLegacyBatchedGemm x ls).1 = b) ∧
    (b.isInt16 = false ∧ b.isShifted = false ∧ b.isShiftedAll = false ∧
     b.isLegacyBatchedGemm = false) ∧
    (((b.setInt16 x ls).1.setInt16 y (b.setInt16 x ls).2).2.messages =
        (b.setInt16 x ls).2.messages ∧
     ((b.setShifted x ls).1.setShifted y (b.setShifted x ls).2).2.messages =
        (b.setShifted x ls).2.messages ∧
     ((b.setShiftedAll x ls).1.setShiftedAll y (b.setShiftedAll x ls).2).2.messages =
        (b.setShiftedAll x ls).2.messages ∧
     ((b.setLegacyBatchedGemm x ls).1.setLegacyBatchedGemm y
        (b.setLegacyBatchedGemm x ls).2).2.messages =
        (b.setLegacyBatchedGemm x ls).2.messages) ∧
    ((LogSite.inSetInt16 ∉ ls.onceSites →
        (b.setInt16 x ls).2.messages =
          ls.messages ++ ["setOptimized() not supported for GPU_" ++ toString x]) ∧
     (LogSite.inSetShifted ∉ ls.onceSites →
        (b.setShifted x ls).2.messages =
          ls.messages ++ ["setShifted() not supported for GPU_" ++ toString x]) ∧
     (LogSite.inSetShiftedAll ∉ ls.onceSites →
        (b.setShiftedAll x ls).2.messages =
          ls.messages ++ ["setShiftedAll() not supported for GPU_" ++ toString x]) ∧
     (LogSite.inSetLegacyBatchedGemm ∉ ls.onceSites →
        (b.setLegacyBatchedGemm x ls).2.messages =
          ls.messages ++ ["setLegacyBatchedGemm() not supported for GPU_" ++ toString x])) := by
  refine ⟨⟨rfl, rfl, rfl, rfl⟩, ⟨rfl, rfl, rfl, rfl⟩, ⟨?_, ?_, ?_, ?_⟩, ?_, ?_, ?_, ?_⟩
  · show (logOnce .inSetInt16 _ (logOnce .inSetInt16 _ ls)).messages = _
    rw [logOnce_already _ _ _ (logOnce_mem _ _ _)]
    rfl
  · show (logOnce .inSetShifted _ (logOnce .inSetShifted _ ls)).messages = _
    rw [logOnce_already _ _ _ (logOnce_mem _ _ _)]
    rfl
  · show (logOnce .inSetShiftedAll _ (logOnce .inSetShiftedAll _ ls)).messages = _
    rw [logOnce_already _ _ _ (logOnce_mem _ _ _)]
    rfl
  · show (logOnce .inSetLegacyBatchedGemm _ (logOnce .inSetLegacyBatchedGemm _ ls)).messages = _
    rw [logOnce_already _ _ _ (logOnce_mem _ _ _)]
    rfl
  · exact fun h => logOnce_fresh _ _ _ h
  · exact fun h => logOnce_fresh _ _ _ h
  · exact fun h => logOnce_fresh _ _ _ h
  · exact fun h => logOnce_fresh _ _ _ h

/-- C8 witness: on an empty log, each unsupported setter leaves the backend
unchanged and emits exactly its one notice. -/
theorem unsupported_setters_noop_witness :
    ((Backend.init 0 0 ⟨7, 0⟩).setInt16 true ⟨[], []⟩).1 = Backend.init 0 0 ⟨7, 0⟩ ∧
    ((Backend.init 0 0 ⟨7, 0⟩).setInt16 true ⟨[], []⟩).2.messages =
      [] ++ ["setOptimized() not supported for GPU_" ++ toString true] ∧
    ((Backend.init 0 0 ⟨7, 0⟩).setShifted true ⟨[], []⟩).2.messages =
      [] ++ ["setShifted() not supported for GPU_" ++ toString true] ∧
    ((Backend.init 0 0 ⟨7, 0⟩).setShiftedAll true ⟨[], []⟩).2.messages =
      [] ++ ["setShiftedAll() not supported for GPU_" ++ toString true] ∧
    ((Backend.init 0 0 ⟨7, 0⟩).setLegacyBatchedGemm true ⟨[], []⟩).2.messages =
      [] ++ ["setLegacyBatchedGemm() not supported for GPU_" ++ toString true] :=
  ⟨(unsupported_setters_noop (Backend.init 0 0 ⟨7, 0⟩) ⟨[], []⟩ true false).1.1,
   (unsupported_setters_noop (Backend.init 0 0 ⟨7, 0⟩) ⟨[], []⟩ true false).2.2.2.1
     (by decide),
   (unsupported_setters_noop (Backend.init 0 0 ⟨7, 0⟩) ⟨[], []⟩ true false).2.2.2.2.1
     (by decide),
   (unsupported_setters_noop (Backend.init 0 0 ⟨7, 0⟩) ⟨[], []⟩ true false).2.2.2.2.2.1
     (by decide),
   (unsupported_setters_noop (Backend.init 0 0 ⟨7, 0⟩) ⟨[], []⟩ true false).2.2.2.2.2.2
     (by decide)⟩

/-- C9: setTensorCoreGemm(false) does nothing at all: no capability check, no
abort, no flag change and no logging, whatever the prior state. -/
theorem setTensorCoreGemm_false_frame (b : Backend) :
    b.setTensorCoreGemm false = .ok b := rfl

end gpu

/-- C10: when any precondition is violated (wrong beam dimension, oversized
vocabulary, oversized batch, oversized beam, or unsupported element
precision), the call aborts before any output mutation: both output
containers hold exactly their entry contents at the moment of the abort. -/
theorem getNBestList_abort_preserves_outputs (e : NthElementGPU) (scores : Tensor) (N : Nat)
    (costs0 : List Rat) (keys0 : List Nat) (isFirst : Bool)
    (h : scores.shape.atNeg2 ≠ (if isFirst then 1 else N) ∨
         scores.shape.atNeg1 > MAX_VOCAB_SIZE ∨
         scores.shape.atNeg4 > e.maxBatchSize_ ∨
         max N scores.shape.atNeg2 > e.maxBeamSize_ ∨
         supportedScoreType scores.ty = false) :
    ∃ msg, e.getNBestList scores N costs0 keys0 isFirst = .error ⟨msg, costs0, keys0⟩ :=
  getNBestList_precondition_abort_aux e scores N costs0 keys0 isFirst h

/-- C10 witness: an oversized vocabulary (500001) aborts with the prefilled
output containers untouched. -/
theorem getNBestList_abort_preserves_outputs_witness :
    ((Shape.atNeg2 ⟨1, 1, 1, 500001⟩ ≠ (if true then 1 else 1)) ∨
      Shape.atNeg1 ⟨1, 1, 1, 500001⟩ > MAX_VOCAB_SIZE ∨
      Shape.atNeg4 ⟨1, 1, 1, 500001⟩ > (NthElementGPU.init 1 1 ⟨0⟩).maxBatchSize_ ∨
      max 1 (Shape.atNeg2 ⟨1, 1, 1, 500001⟩) > (NthElementGPU.init 1 1 ⟨0⟩).maxBeamSize_ ∨
      supportedScoreType ElemType.float32 = false) ∧
    (∃ msg, (NthElementGPU.init 1 1 ⟨0⟩).getNBestList ⟨⟨1, 1, 1, 500001⟩, .float32, []⟩ 1
      [3] [7] true = .error ⟨msg, [3], [7]⟩) :=
  ⟨by decide,
   getNBestList_abort_preserves_outputs (NthElementGPU.init 1 1 ⟨0⟩)
     ⟨⟨1, 1, 1, 500001⟩, .float32, []⟩ 1 [3] [7] true (by decide)⟩

/-- C3 counterexample: a call whose four shape and capacity preconditions all
hold but whose element type is unsupported still aborts, so the abort is not
equivalent to the violation of those preconditions. -/
theorem getNBestList_unsupported_type_abort :
    ((NthElementGPU.init 1 1 ⟨0⟩).getNBestList ⟨⟨1, 1, 1, 1⟩, .other "float64", [0]⟩ 1 [] [] true
      = .error ⟨"getNBestList not implemented for type", [], []⟩) ∧
    (Shape.atNeg2 ⟨1, 1, 1, 1⟩ = (if true then 1 else 1)) ∧
    Shape.atNeg1 ⟨1, 1, 1, 1⟩ ≤ MAX_VOCAB_SIZE ∧
    Shape.atNeg4 ⟨1, 1, 1, 1⟩ ≤ (NthElementGPU.init 1 1 ⟨0⟩).maxBatchSize_ ∧
    max 1 (Shape.atNeg2 ⟨1, 1, 1, 1⟩) ≤ (NthElementGPU.init 1 1 ⟨0⟩).maxBeamSize_ :=
  ⟨rfl, by decide, by decide, by decide, by decide⟩

/-- C3 (amended): getNBestList aborts if and only if one of the four listed
preconditions is violated, or the element type is unsupported, or the keys
output container is nonempty on entry (the final size check compares the
container's total size with dimBatch * N); in particular vocabulary size
exactly 500000 passes the vocabulary check and 500001 fails it, and beam size
exactly at the configured maximum passes the beam check and one above fails
it. -/
theorem getNBestList_abort_iff (e : NthElementGPU) (scores : Tensor) (N : Nat)
    (costs0 : List Rat) (keys0 : List Nat) (isFirst : Bool) :
    isAbort (e.getNBestList scores N costs0 keys0 isFirst) = true ↔
      (scores.shape.atNeg2 ≠ (if isFirst then 1 else N) ∨
       scores.shape.atNeg1 > MAX_VOCAB_SIZE ∨
       scores.shape.atNeg4 > e.maxBatchSize_ ∨
       max N scores.shape.atNeg2 > e.maxBeamSize_ ∨
       supportedScoreType scores.ty = false ∨
       keys0 ≠ []) :=
  getNBestList_abort_iff_aux e scores N costs0 keys0 isFirst

/-- C2 counterexample: with every precondition satisfied but one pre-existing
entry in the keys container, the final size check compares the container's
total size against dimBatch * N and the call aborts instead of succeeding. -/
theorem getNBestList_prefilled_keys_abort :
    (Shape.atNeg2 ⟨1, 1, 1, 1⟩ = (if true then 1 else 1)) ∧
    Shape.atNeg1 ⟨1, 1, 1, 1⟩ ≤ MAX_VOCAB_SIZE ∧
    Shape.atNeg4 ⟨1, 1, 1, 1⟩ ≤ (NthElementGPU.init 1 1 ⟨0⟩).maxBatchSize_ ∧
    max 1 (Shape.atNeg2 ⟨1, 1, 1, 1⟩) ≤ (NthElementGPU.init 1 1 ⟨0⟩).maxBeamSize_ ∧
    supportedScoreType ElemType.float32 = true ∧
    ((NthElementGPU.init 1 1 ⟨0⟩).getNBestList ⟨⟨1, 1, 1, 1⟩, .float32, [0]⟩ 1 [] [5] true =
      .error ⟨"Expected and got different value counts during topk", [0], [5, 0]⟩) :=
  ⟨by decide, by decide, by decide, by decide, rfl, rfl⟩

/-- C2 (amended): under the preconditions (including a supported element
type), getNBestList appends exactly dimBatch * N entries to each output
container and, provided the keys container is empty on entry (a nonempty one
trips the final size check), the call succeeds; the costs container's entry
contents are preserved as a prefix. -/
theorem getNBestList_append_counts (e : NthElementGPU) (scores : Tensor) (N : Nat)
    (costs0 : List Rat) (keys0 : List Nat) (isFirst : Bool)
    (h1 : scores.shape.atNeg2 = (if isFirst then 1 else N))
    (h2 : scores.shape.atNeg1 ≤ MAX_VOCAB_SIZE)
    (h3 : scores.shape.atNeg4 ≤ e.maxBatchSize_)
    (h4 : max N scores.shape.atNeg2 ≤ e.maxBeamSize_)
    (h5 : supportedScoreType scores.ty = true)
    (hkeys : keys0 = []) :
    ∃ e2 costs keys,
      e.getNBestList scores N costs0 keys0 isFirst = .ok (e2, costs, keys) ∧
      costs.length = costs0.length + scores.shape.atNeg4 * N ∧
      keys.length = keys0.length + scores.shape.atNeg4 * N ∧
      costs.take costs0.length = costs0 ∧
      keys.take keys0.length = keys0 := by
  subst hkeys
  rw [getNBestList_pre_eq e scores N costs0 [] isFirst h1 h2 h3 h4 h5, if_neg (by simp)]
  refine ⟨_, _, _, rfl, ?_, ?_, ?_, ?_⟩
  · simp [appendedRecords]
  · simp [appendedRecords]
  · exact List.take_left _ _
  · simp

/-- C2 witness: a valid one-batch one-beam call with empty containers succeeds
and appends exactly one pair to each container. -/
theorem getNBestList_append_counts_witness :
    (Shape.atNeg2 ⟨1, 1, 1, 1⟩ = (if true then 1 else 1)) ∧
    (∃ e2 costs keys,
      (NthElementGPU.init 1 1 ⟨0⟩).getNBestList ⟨⟨1, 1, 1, 1⟩, .float32, [0]⟩ 1 [] [] true =
        .ok (e2, costs, keys) ∧
      costs.length = ([] : List Rat).length + Shape.atNeg4 ⟨1, 1, 1, 1⟩ * 1 ∧
      keys.length = ([] : List Nat).length + Shape.atNeg4 ⟨1, 1, 1, 1⟩ * 1 ∧
      costs.take ([] : List Rat).length = ([] : List Rat) ∧
      keys.take ([] : List Nat).length = ([] : List Nat)) :=
  ⟨by decide,
   getNBestList_append_counts (NthElementGPU.init 1 1 ⟨0⟩) ⟨⟨1, 1, 1, 1⟩, .float32, [0]⟩ 1
     [] [] true (by decide) (by decide) (by decide) (by decide) rfl rfl⟩

/-- C4: getPairs copies exactly numElts records from the device result buffer
into the prefix of the pinned host mirror and appends, in device-buffer
order, record i's index to the keys container and record i's value to the
costs container, so each appended (key, cost) position comes from the same
record. -/
theorem getPairs_copy_append_pairing (e : NthElementGPU) (numElts : Nat)
    (keys0 : List Nat) (vals0 : List Rat) :
    (e.getPairs numElts keys0 vals0).1.topsHost =
      (List.range numElts).map (fun i => e.tops.getD i default) ++ e.topsHost.drop numElts ∧
    (e.getPairs numElts keys0 vals0).2.1 =
      keys0 ++ (List.range numElts).map (fun i => (e.tops.getD i default).p) ∧
    (e.getPairs numElts keys0 vals0).2.2 =
      vals0 ++ (List.range numElts).map (fun i => (e.tops.getD i default).u) ∧
    ∀ i, i < numElts →
      (e.getPairs numElts keys0 vals0).2.1.getD (keys0.length + i) 0 =
        (e.tops.getD i default).p ∧
      (e.getPairs numElts keys0 vals0).2.2.getD (vals0.length + i) 0 =
        (e.tops.getD i default).u := by
  rw [getPairs_eq]
  refine ⟨rfl, rfl, rfl, ?_⟩
  intro i hi
  constructor
  · rw [getD_append_add, map_range_getD _ _ _ _ hi]
  · rw [getD_append_add, map_range_getD _ _ _ _ hi]

/-- C4 witness: on a one-slot engine, the pair appended after one pre-existing
entry in each container is record 0 of the device result buffer. -/
theorem getPairs_copy_append_pairing_witness :
    ((NthElementGPU.init 1 1 ⟨0⟩).getPairs 1 [7] [2]).2.1.getD (1 + 0) 0 =
      ((NthElementGPU.init 1 1 ⟨0⟩).tops.getD 0 default).p ∧
    ((NthElementGPU.init 1 1 ⟨0⟩).getPairs 1 [7] [2]).2.2.getD (1 + 0) 0 =
      ((NthElementGPU.init 1 1 ⟨0⟩).tops.getD 0 default).u :=
  (getPairs_copy_append_pairing (NthElementGPU.init 1 1 ⟨0⟩) 1 [7] [2]).2.2.2 0 (by decide)

theorem map_range_getD_eq (l : List α) (d : α) :
    (List.range l.length).map (fun j => l.getD j d) = l := by
  apply List.ext_getElem
  · simp
  · intro i h1 h2
    simp only [List.getElem_map, List.getElem_range]
    rw [List.getD_eq_getElem?_getD, List.getElem?_eq_getElem h2]
    rfl

theorem map_range_getD_eq' (l : List α) (n : Nat) (d : α) (h : l.length = n) :
    (List.range n).map (fun j => l.getD j d) = l := by
  subst h
  exact map_range_getD_eq l d

/-- C5: a second getNBestList call on the engine produced by a first call,
with the identical input tensor and parameters, appends exactly the same
output sequences and leaves the engine unchanged: the shared scratch buffers
carry no state between calls that affects the result. -/
theorem getNBestList_two_run_deterministic (e e2 : NthElementGPU) (scores : Tensor)
    (N : Nat) (isFirst : Bool) (costs : List Rat) (keys : List Nat)
    (h : e.getNBestList scores N [] [] isFirst = .ok (e2, costs, keys)) :
    e2.getNBestList scores N [] [] isFirst = .ok (e2, costs, keys) := by
  have hiff := getNBestList_abort_iff_aux e scores N [] [] isFirst
  rw [h] at hiff
  have hnot : ¬ (scores.shape.atNeg2 ≠ (if isFirst then 1 else N) ∨
      scores.shape.atNeg1 > MAX_VOCAB_SIZE ∨
      scores.shape.atNeg4 > e.maxBatchSize_ ∨
      max N scores.shape.atNeg2 > e.maxBeamSize_ ∨
      supportedScoreType scores.ty = false ∨
      ([] : List Nat) ≠ []) := by
    intro hd
    have hfalse := hiff.mpr hd
    simp [isAbort] at hfalse
  push_neg at hnot
  obtain ⟨h1, h2, h3, h4, h5x, -⟩ := hnot
  have h5 : supportedScoreType scores.ty = true := by
    cases hx : supportedScoreType scores.ty
    · exact absurd hx h5x
    · rfl
  rw [getNBestList_pre_eq e scores N [] [] isFirst h1 h2 h3 h4 h5, if_neg (by simp)] at h
  have hA : engineAfter e scores N = e2 := congrArg Prod.fst (Except.ok.inj h)
  have hB : ([] : List Rat) ++ (appendedRecords e scores N).map (fun r => r.u) = costs :=
    congrArg (fun p => p.2.1) (Except.ok.inj h)
  have hC : ([] : List Nat) ++ (appendedRecords e scores N).map (fun r => r.p) = keys :=
    congrArg (fun p => p.2.2) (Except.ok.inj h)
  subst hA
  rw [getNBestList_pre_eq (engineAfter e scores N) scores N [] [] isFirst h1 h2 h3 h4 h5,
    if_neg (by simp), engineAfter_idem, appendedRecords_engineAfter, hB, hC]

/-- C5 witness: a concrete one-batch call evaluated twice returns the same
engine and the same appended outputs both times. -/
theorem getNBestList_two_run_deterministic_witness :
    ((NthElementGPU.init 1 1 ⟨0⟩).getNBestList ⟨⟨1, 1, 1, 1⟩, .float32, [0]⟩ 1 [] [] true =
      .ok (NthElementGPU.init 1 1 ⟨0⟩, [0], [0])) ∧
    ((NthElementGPU.init 1 1 ⟨0⟩).getNBestList ⟨⟨1, 1, 1, 1⟩, .float32, [0]⟩ 1 [] [] true =
      .ok (NthElementGPU.init 1 1 ⟨0⟩, [0], [0])) :=
  ⟨rfl,
   getNBestList_two_run_deterministic (NthElementGPU.init 1 1 ⟨0⟩) (NthElementGPU.init 1 1 ⟨0⟩)
     ⟨⟨1, 1, 1, 1⟩, .float32, [0]⟩ 1 true [0] [0] rfl⟩

/-- C1: under the caller contract, with well-formed tensor data and rows of at
least N entries, the N (key, value) pairs appended for each batch row are that
row's N highest-scoring entries: sorted score-descending, and each at least
every non-returned value of the row. -/
theorem getNBestList_row_top_property (e : NthElementGPU) (scores : Tensor) (N : Nat)
    (isFirst : Bool) (b : Nat)
    (h1 : scores.shape.atNeg2 = (if isFirst then 1 else N))
    (h2 : scores.shape.atNeg1 ≤ MAX_VOCAB_SIZE)
    (h3 : scores.shape.atNeg4 ≤ e.maxBatchSize_)
    (h4 : max N scores.shape.atNeg2 ≤ e.maxBeamSize_)
    (h5 : supportedScoreType scores.ty = true)
    (hdata : scores.data.length =
      scores.shape.atNeg4 * (scores.shape.atNeg2 * scores.shape.atNeg1))
    (hN : N ≤ scores.shape.atNeg2 * scores.shape.atNeg1)
    (hb : b < scores.shape.atNeg4) :
    ∃ e2 costs keys,
      e.getNBestList scores N [] [] isFirst = .ok (e2, costs, keys) ∧
      rowTopProperty (batchRow scores.data b scores.shape.atNeg2 scores.shape.atNeg1)
        ((List.range N).map (fun j =>
          TopK.mk (keys.getD (b * N + j) 0) (costs.getD (b * N + j) 0))) := by
  rw [getNBestList_pre_eq e scores N [] [] isFirst h1 h2 h3 h4 h5, if_neg (by simp)]
  refine ⟨_, _, _, rfl, ?_⟩
  have hBlen : (batchTopK scores.data b scores.shape.atNeg2 N scores.shape.atNeg1).length = N :=
    batchTopK_length hdata hb hN
  have hidx : ∀ j, j < N → b * N + j < scores.shape.atNeg4 * N := by
    intro j hj
    have hmul : (b + 1) * N ≤ scores.shape.atNeg4 * N := Nat.mul_le_mul_right N hb
    rw [Nat.add_mul, Nat.one_mul] at hmul
    omega
  have hstep : ∀ j ∈ List.range N,
      TopK.mk
        ((([] : List Nat) ++ (appendedRecords e scores N).map (fun r => r.p)).getD (b * N + j) 0)
        ((([] : List Rat) ++ (appendedRecords e scores N).map (fun r => r.u)).getD (b * N + j) 0) =
      (batchTopK scores.data b scores.shape.atNeg2 N scores.shape.atNeg1).getD j default := by
    intro j hj
    have hjN := List.mem_range.mp hj
    have hrec : (launchedEngine e scores N).tops.getD (b * N + j) default =
        (batchTopK scores.data b scores.shape.atNeg2 N scores.shape.atNeg1).getD j default := by
      have hT : (launchedEngine e scores N).tops =
          kernelResults scores.data scores.shape.atNeg4 scores.shape.atNeg2 N scores.shape.atNeg1
            ++ e.tops.drop (kernelResults scores.data scores.shape.atNeg4 scores.shape.atNeg2 N
              scores.shape.atNeg1).length := rfl
      rw [hT, List.getD_append _ _ _ _ (by
        rw [kernelResults_length hdata hN]
        exact hidx j hjN)]
      exact kernelResults_getD hdata hN hb hjN
    have hk : (([] : List Nat) ++
        (appendedRecords e scores N).map (fun r => r.p)).getD (b * N + j) 0 =
        ((batchTopK scores.data b scores.shape.atNeg2 N scores.shape.atNeg1).getD j default).p := by
      rw [List.nil_append]
      unfold appendedRecords
      rw [List.map_map]
      rw [map_range_getD ((fun r => r.p) ∘ fun i => (launchedEngine e scores N).tops.getD i default)
        (scores.shape.atNeg4 * N) (b * N + j) 0 (hidx j hjN)]
      show ((launchedEngine e scores N).tops.getD (b * N + j) default).p = _
      rw [hrec]
    have hu : (([] : List Rat) ++
        (appendedRecords e scores N).map (fun r => r.u)).getD (b * N + j) 0 =
        ((batchTopK scores.data b scores.shape.atNeg2 N scores.shape.atNeg1).getD j default).u := by
      rw [List.nil_append]
      unfold appendedRecords
      rw [List.map_map]
      rw [map_range_getD ((fun r => r.u) ∘ fun i => (launchedEngine e scores N).tops.getD i default)
        (scores.shape.atNeg4 * N) (b * N + j) 0 (hidx j hjN)]
      show ((launchedEngine e scores N).tops.getD (b * N + j) default).u = _
      rw [hrec]
    rw [hk, hu]
  rw [List.map_congr_left hstep, map_range_getD_eq' _ _ _ hBlen]
  exact pipeline_rowTopProperty
    (batchRow scores.data b scores.shape.atNeg2 scores.shape.atNeg1)
    scores.shape.atNeg2 scores.shape.atNeg1 N (le_of_eq (batchRow_length hdata hb))

/-- C1 witness: the spec's scenario, batch 2, one input beam, vocabulary 5,
N 3; the preconditions hold and the appended pairs of batch row 0 satisfy the
top-N property. -/
theorem getNBestList_row_top_property_witness :
    (Shape.atNeg2 ⟨2, 1, 1, 5⟩ = (if true then 1 else 3)) ∧ (0 < Shape.atNeg4 ⟨2, 1, 1, 5⟩) ∧
    (∃ e2 costs keys,
      (NthElementGPU.init 3 2 ⟨0⟩).getNBestList
        ⟨⟨2, 1, 1, 5⟩, .float32,
          [1/10, 9/10, 3/10, 5/100, 4/10, 2/10, 2/10, 8/10, 1/10, 6/10]⟩ 3 [] [] true =
        .ok (e2, costs, keys) ∧
      rowTopProperty (batchRow [1/10, 9/10, 3/10, 5/100, 4/10, 2/10, 2/10, 8/10, 1/10, 6/10]
          0 (Shape.atNeg2 ⟨2, 1, 1, 5⟩) (Shape.atNeg1 ⟨2, 1, 1, 5⟩))
        ((List.range 3).map (fun j =>
          TopK.mk (keys.getD (0 * 3 + j) 0) (costs.getD (0 * 3 + j) 0)))) :=
  ⟨by decide, by decide,
   getNBestList_row_top_property (NthElementGPU.init 3 2 ⟨0⟩)
     ⟨⟨2, 1, 1, 5⟩, .float32,
       [1/10, 9/10, 3/10, 5/100, 4/10, 2/10, 2/10, 8/10, 1/10, 6/10]⟩ 3 true 0
     (by decide) (by decide) (by decide) (by decide) rfl (by decide) (by decide) (by decide)⟩

end marian
